import Mathlib

/-!
Verification of the comfyui-lora-random-selector repository.

The development shallowly embeds the three Python modules:
  * `src/utils/lora_utils.py`   (`LoRASelector`, `PromptBuilder`)
  * `src/utils/config_manager.py` (`ConfigManager`)
  * `src/lora_random_selector.py` (`LoRARandomSelector` node entry point)

Python dictionaries with a known schema are embedded as structures with
`Option` fields (a missing key is `none`); JSON documents whose shape is
unknown before validation are embedded as a small `Json` inductive.
Python floats are embedded as rationals: every arithmetic operation the
code performs on strengths (`max`, `min`, comparison, addition, division)
is order/field arithmetic that is exact on the rationals for the values
involved.  The process-wide `random` module is embedded as an abstract
state-passing sampler (`RandomModel`): `random.seed` replaces the state by
a function of the seed, `random.sample` consumes and returns the state.
Filesystem and `json.dumps` are abstract parameters of the node model.
-/

namespace LoraRepo

/-! ## JSON values (for `config_manager.py`, which inspects raw parsed JSON) -/

/-- Embedded JSON value, the result of Python `json.load`.
`num` covers ints and floats (exact for the order comparisons the code does). -/
inductive Json where
  | null : Json
  | bool (b : Bool) : Json
  | num (q : ℚ) : Json
  | str (s : String) : Json
  | arr (elems : List Json) : Json
  | obj (entries : List (String × Json)) : Json
deriving Inhabited

/-- `d[k]` lookup on a JSON object (first binding wins, as in a Python dict
whose keys are unique). -/
def Json.lookup (j : Json) (key : String) : Option Json :=
  match j with
  | .obj entries => entries.lookup key
  | _ => none

/-! ## Typed LoRA entries (for `lora_utils.py`, which uses `.get` with defaults) -/

/-- A LoRA record as consumed by `LoRASelector`: a dict whose known keys may
be absent (`lora_info.get(key, default)` in the source). -/
structure LoRAEntry where
  file_path : Option String := none
  strength_default : Option ℚ := none
  trigger_words : Option (List String) := none
  tags : Option (List String) := none
deriving DecidableEq, Repr, Inhabited

/-! ## The `random` module model -/

/-- Abstract state of Python's process-wide `random` generator. -/
abbrev RNG : Type := Nat

/-- Abstract model of the parts of Python's `random` module the code uses.
`seedFn s` is the generator state produced by `random.seed(s)`;
`sample g pop k` is `random.sample(pop, k)` run in state `g`, returning the
selected list and the successor state.  `sample` is only invoked by the
embedding when `0 ≤ k ≤ pop.length` (Python raises `ValueError` otherwise,
which the embedding models explicitly as an `Except.error`). -/
structure RandomModel where
  seedFn : Int → RNG
  sample : {α : Type} → RNG → List α → Nat → List α × RNG

/-- The contract Python's `random.sample` satisfies whenever it does not
raise: it returns exactly `k` elements drawn without replacement (i.e. a
permutation of a sublist of the population). -/
def SampleOK (R : RandomModel) : Prop :=
  ∀ {α : Type} (g : RNG) (pop : List α) (k : Nat), k ≤ pop.length →
    ((R.sample g pop k).1.length = k ∧ List.Subperm (R.sample g pop k).1 pop)

/-- `random.sample(pop, k)` for a Python int `k`: raises `ValueError` unless
`0 ≤ k ≤ len(pop)`. -/
def pySample (R : RandomModel) {α : Type} (g : RNG) (pop : List α) (k : Int) :
    Except String (List α × RNG) :=
  if 0 ≤ k ∧ k ≤ (pop.length : Int) then .ok (R.sample g pop k.toNat)
  else .error "Sample larger than population or is negative"

/-- A concrete sampler (not claimed to be Python's algorithm; it witnesses
that `SampleOK` is satisfiable): takes the first `k` elements. -/
def takeSampler : RandomModel where
  seedFn s := s.toNat
  sample g pop k := (pop.take k, g + 1)

/-- The seeding step both selector methods share:
`if seed is not None and seed >= 0: random.seed(seed)` — the generator state
becomes a function of the seed, otherwise it is left unchanged. -/
def pySeed (R : RandomModel) (g : RNG) (seed : Option Int) : RNG :=
  match seed with
  | some s => if 0 ≤ s then R.seedFn s else g
  | none => g

/-! ## `LoRASelector.select_random_lora` (lora_utils.py lines 16-57) -/

/-- `LoRASelector.select_random_lora(loras, count, seed)`.
`loras` is the dict as a key-ordered association list; `count` a Python int;
`seed=None` is `none`.  The incoming generator state `g` is threaded; the
result is `Except` because `random.sample` can raise. -/
def select_random_lora (R : RandomModel) (g : RNG)
    (loras : List (String × LoRAEntry)) (count : Int) (seed : Option Int) :
    Except String (List (String × LoRAEntry) × RNG) :=
  if loras = [] then .ok ([], g)
  else
    let g1 : RNG := pySeed R g seed
    let available_loras := loras
    let actual_count : Int := min count (loras.length : Int)
    if actual_count = 0 then .ok ([], g1)
    else if actual_count = (available_loras.length : Int) then .ok (available_loras, g1)
    else pySample R g1 available_loras actual_count

/-! ## `LoRASelector.select_trigger_words` (lora_utils.py lines 59-98) -/

/-- `LoRASelector.select_trigger_words(lora_info, count, seed)`. -/
def select_trigger_words (R : RandomModel) (g : RNG)
    (lora_info : LoRAEntry) (count : Int) (seed : Option Int) :
    Except String (List String × RNG) :=
  let trigger_words := lora_info.trigger_words.getD []
  if trigger_words = [] then .ok ([], g)
  else
    let g1 : RNG := pySeed R g seed
    let actual_count : Int := min count (trigger_words.length : Int)
    if actual_count = 0 then .ok ([], g1)
    else if actual_count = (trigger_words.length : Int) then .ok (trigger_words, g1)
    else pySample R g1 trigger_words actual_count

/-! ## `LoRASelector.calculate_weighted_strength` (lora_utils.py lines 119-148) -/

/-- The per-entry strength before clamping: `strength_override` if provided
and `> 0`, else `lora_info.get('strength_default', 0.7)`. -/
def baseStrength (info : LoRAEntry) (strength_override : Option ℚ) : ℚ :=
  match strength_override with
  | some o => if 0 < o then o else info.strength_default.getD (7/10)
  | none => info.strength_default.getD (7/10)

/-- `LoRASelector.calculate_weighted_strength(selected_loras, strength_override)`. -/
def calculate_weighted_strength (selected_loras : List (String × LoRAEntry))
    (strength_override : Option ℚ) : List ℚ :=
  selected_loras.map fun p => max (1/10) (min 2 (baseStrength p.2 strength_override))

/-! ## `LoRASelector.combine_trigger_words` (lora_utils.py lines 100-117) -/

/-- `list(dict.fromkeys(all_words))`: deduplicate keeping first occurrences. -/
def dedupKeepFirst (l : List String) : List String :=
  l.foldl (fun acc x => if x ∈ acc then acc else acc ++ [x]) []

/-- `LoRASelector.combine_trigger_words(words_list)`. -/
def combine_trigger_words (words_list : List (List String)) : String :=
  ", ".intercalate (dedupKeepFirst words_list.flatten)

/-! ## `LoRASelector.format_lora_info` (lora_utils.py lines 150-192) -/

/-- One element of `formatted_info["loras"]`. -/
def lora_detail (name : String) (info : LoRAEntry) (strength : ℚ)
    (words : List String) : Json :=
  .obj [("name", .str name),
        ("file_path", .str (info.file_path.getD "")),
        ("strength", .num strength),
        ("trigger_words", .arr (words.map .str)),
        ("tags", .arr ((info.tags.getD []).map .str))]

/-- `LoRASelector.format_lora_info(selected_loras, strengths, trigger_words_list)`.
The Python loop runs over `zip(selected_loras, strengths)` (truncating to the
shorter list); `trigger_words_list[i]` falls back to `[]` past the end; the
mean divides by `len(selected_loras)`. -/
def format_lora_info (selected_loras : List (String × LoRAEntry)) (strengths : List ℚ)
    (trigger_words_list : List (List String)) : Json :=
  let pairs := selected_loras.zip strengths
  let details := pairs.enum.map fun q =>
    lora_detail q.2.1.1 q.2.1.2 q.2.2 (trigger_words_list.getD q.1 [])
  let total : ℚ := pairs.foldl (fun a p => a + p.2) 0
  let combined : ℚ :=
    if 0 < selected_loras.length then total / (selected_loras.length : ℚ) else 0
  .obj [("selected_count", .num (selected_loras.length : ℚ)),
        ("loras", .arr details),
        ("combined_strength", .num combined),
        ("all_trigger_words", .str (combine_trigger_words trigger_words_list))]

/-! ## `LoRASelector.validate_lora_paths` (lora_utils.py lines 194-228) -/

/-- `os.path.isabs` (POSIX: absolute iff it starts with a slash). -/
def py_isabs (s : String) : Bool := s.startsWith "/"

/-- Resolution of a LoRA path: relative paths resolve under
`Path("models") / "loras"` before the existence check. -/
def resolveLoraPath (file_path : String) : String :=
  if py_isabs file_path then file_path else "models/loras/" ++ file_path

/-- `LoRASelector.validate_lora_paths(selected_loras)`; the filesystem is the
abstract parameter `fileExists` (`Path.exists`). -/
def validate_lora_paths (fileExists : String → Bool)
    (selected_loras : List (String × LoRAEntry)) : List Bool :=
  selected_loras.map fun p => fileExists (resolveLoraPath (p.2.file_path.getD ""))

/-! ## Character-level string utilities for `PromptBuilder`

Python string methods are embedded on `List Char` (`String.data`) so that the
splitting and trimming recursions are structurally available to proofs. -/

/-- The characters Python `str.strip()` removes (ASCII whitespace). -/
def pySpaceChar (c : Char) : Bool :=
  c = ' ' || c = '\t' || c = '\n' || c = '\r' || c = '\x0b' || c = '\x0c'

/-- `str.strip()` on the character list: drop leading and trailing whitespace. -/
def stripL (l : List Char) : List Char :=
  ((l.dropWhile pySpaceChar).reverse.dropWhile pySpaceChar).reverse

/-- `str.strip()`. -/
def pyStrip (s : String) : String := String.mk (stripL s.data)

/-- Helper for `str.split(",")`: the segment up to the first comma, and the
remaining segments. -/
def splitCommaAux : List Char → List Char × List (List Char)
  | [] => ([], [])
  | c :: cs =>
    let r := splitCommaAux cs
    if c = ',' then ([], r.1 :: r.2) else (c :: r.1, r.2)

/-- `str.split(",")`: split at every comma, keeping empty segments
(`"".split(",") == [""]`). -/
def splitCommaL (l : List Char) : List (List Char) :=
  (splitCommaAux l).1 :: (splitCommaAux l).2

/-- `", ".join(parts)` on character lists. -/
def joinCommaSpace : List (List Char) → List Char
  | [] => []
  | [w] => w
  | w :: ws => w ++ [',', ' '] ++ joinCommaSpace ws

/-- The comprehension `[part.strip() for part in prompt.split(",") if part.strip()]`. -/
def partsL (l : List Char) : List (List Char) :=
  ((splitCommaL l).map stripL).filter (fun w => w ≠ [])

/-- Body of `PromptBuilder.clean_prompt` on character lists. -/
def cleanL (l : List Char) : List Char :=
  joinCommaSpace (partsL l)

/-! ## `PromptBuilder.build_combined_prompt` (lora_utils.py lines 236-279) -/

/-- `PromptBuilder.build_combined_prompt(base_prompt, trigger_words, position)`.
`if not trigger_words.strip()` is the emptiness test of the stripped string;
afterwards both arguments are re-bound to their stripped forms and
`if base_prompt:` tests non-emptiness. -/
def build_combined_prompt (base_prompt trigger_words : String)
    (position : String) : String :=
  if pyStrip trigger_words = "" then base_prompt
  else
    let base := pyStrip base_prompt
    let trig := pyStrip trigger_words
    if position = "beginning" then
      if base ≠ "" then trig ++ ", " ++ base else trig
    else if position = "end" then
      if base ≠ "" then base ++ ", " ++ trig else trig
    else if position = "both" then
      if base ≠ "" then trig ++ ", " ++ base ++ ", " ++ trig else trig
    else
      if base ≠ "" then trig ++ ", " ++ base else trig

/-! ## `PromptBuilder.clean_prompt` (lora_utils.py lines 281-296) -/

/-- `PromptBuilder.clean_prompt(prompt)`: `if not prompt: return ""`, else
split on commas, strip each part, drop empty parts, rejoin with `", "`. -/
def clean_prompt (prompt : String) : String :=
  if prompt = "" then "" else String.mk (cleanL prompt.data)

/-! ## Filesystem and store state for `config_manager.py`

A file is `Option Json`: `none` models a present file whose `json.load`
raises.  A directory is `Option` of its `.json` files as `(stem, content)`
pairs in `glob` enumeration order (`none` = directory absent).  The model
covers the four paths `ConfigManager` touches under `config/`. -/

/-- Content of one file on disk, as seen through `json.load`. -/
abbrev FileContent := Option Json

/-- The slice of the filesystem `ConfigManager` reads and writes. -/
structure FS where
  /-- `config/lora_config.json` (legacy consolidated file). -/
  legacy : Option FileContent
  /-- `config/lora_style/` with its `*.json` files keyed by stem. -/
  loraStyle : Option (List (String × FileContent))
  /-- `config/global_settings.json`. -/
  globalFile : Option FileContent
  /-- `config/lora_config_backup.json`. -/
  backup : Option FileContent

/-- The mutable state of a `ConfigManager` instance. -/
structure ConfigState where
  global_settings : Json := .obj []
  categories : List String := []
  category_cache : List (String × Json) := []

/-! ## Schema validation (config_manager.py lines 128-188) -/

/-- `ConfigManager._validate_lora_data(lora_name, lora_data)`.
A non-dict `lora_data` either fails a key test or raises inside the caller's
per-file `try`, and in both cases the category is not registered, so `false`
is the observable value.  `isinstance(x, (int, float))` accepts Python bools
(`bool` subclasses `int`), hence `.bool` passes the numeric check. -/
def validate_lora_data (lora_data : Json) : Bool :=
  match lora_data with
  | .obj kvs =>
    (kvs.lookup "file_path").isSome &&
    (kvs.lookup "strength_default").isSome &&
    (kvs.lookup "trigger_words").isSome &&
    (match kvs.lookup "trigger_words" with
     | some (.arr _) => true
     | _ => false) &&
    (match kvs.lookup "strength_default" with
     | some (.num _) => true
     | some (.bool _) => true
     | _ => false)
  | _ => false

/-- `ConfigManager._validate_category_data(category_name, category_data)`:
a dict with a `loras` dict all of whose entries validate. -/
def validate_category_data (category_data : Json) : Bool :=
  match category_data with
  | .obj kvs =>
    match kvs.lookup "loras" with
    | some (.obj loras) => loras.all fun p => validate_lora_data p.2
    | _ => false
  | _ => false

/-! ## Default documents (config_manager.py lines 303-361) -/

/-- The document `_create_default_global_settings` writes. -/
def defaultGlobalJson : Json :=
  .obj [("global_settings", .obj
    [("max_trigger_words", .num 3),
     ("default_strength", .num (7/10)),
     ("random_seed", .null),
     ("debug_mode", .bool false),
     ("file_validation", .bool true)])]

/-- The document `_create_default_category_files` writes to `character.json`. -/
def defaultCharacterJson : Json :=
  .obj [("category_info", .obj
          [("name", .str "character"),
           ("description", .str "キャラクター系LoRA")]),
        ("loras", .obj [("sample_character", .obj
          [("file_path", .str "sample_character.safetensors"),
           ("strength_default", .num (4/5)),
           ("trigger_words", .arr [.str "sample character", .str "anime girl"]),
           ("tags", .arr [.str "character", .str "sample"])])])]

/-! ## `ConfigManager._load_global_settings` (config_manager.py lines 72-91) -/

/-- `_load_global_settings`: missing file ⇒ write the default document and
return `True` (without touching `self.global_settings`); unparseable file or
a parsed non-dict (whose `.get` raises `AttributeError`, caught by the
`except`) ⇒ `False`; parsed dict ⇒ store `data.get('global_settings', {})`. -/
def load_global_settings (cs : ConfigState) (fs : FS) : Bool × ConfigState × FS :=
  match fs.globalFile with
  | none => (true, cs, { fs with globalFile := some (some defaultGlobalJson) })
  | some none => (false, cs, fs)
  | some (some data) =>
    match data with
    | .obj kvs =>
      (true, { cs with global_settings := (kvs.lookup "global_settings").getD (.obj []) }, fs)
    | _ => (false, cs, fs)

/-! ## `ConfigManager._load_category_files` (config_manager.py lines 93-126) -/

/-- The scan loop over `lora_style/*.json`: unparseable files are skipped
(per-file `except`), invalid documents are warn-skipped, valid ones are
appended to `categories` and `category_cache` in enumeration order. -/
def scanCategories : List (String × FileContent) → List String × List (String × Json)
  | [] => ([], [])
  | (stem, content) :: rest =>
    let r := scanCategories rest
    match content with
    | some j =>
      if validate_category_data j then (stem :: r.1, (stem, j) :: r.2) else r
    | none => r

/-- `_load_category_files`: missing directory ⇒ create it, write the default
`character.json`, return `True` leaving `categories`/`category_cache`
untouched; otherwise reset both and register every valid document, returning
`len(self.categories) > 0`. -/
def load_category_files (cs : ConfigState) (fs : FS) : Bool × ConfigState × FS :=
  match fs.loraStyle with
  | none =>
    (true, cs, { fs with loraStyle := some [("character", some defaultCharacterJson)] })
  | some files =>
    let r := scanCategories files
    (!r.1.isEmpty, { cs with categories := r.1, category_cache := r.2 }, fs)

/-! ## `ConfigManager._migrate_legacy_config` (config_manager.py lines 363-409) -/

/-- The per-category document the migration writes:
`category_info.name`/`description` plus the original `loras` object. -/
def newCategoryJson (category_name : String) (category_kvs : List (String × Json)) : Json :=
  .obj [("category_info", .obj
          [("name", .str category_name),
           ("description",
            (category_kvs.lookup "description").getD (.str (category_name ++ "系LoRA")))]),
        ("loras", (category_kvs.lookup "loras").getD (.obj []))]

/-- Writing a file into a directory listing: overwrite by stem or append. -/
def writeFile (dir : List (String × FileContent)) (stem : String)
    (content : FileContent) : List (String × FileContent) :=
  if dir.any fun p => p.1 = stem then
    dir.map fun p => if p.1 = stem then (stem, content) else p
  else dir ++ [(stem, content)]

/-- The migration loop over `legacy_data.get('categories', {}).items()`.
A non-dict category value makes `category_data.get` raise, aborting the loop
after the files already written (`false` = aborted). -/
def writeCategoryFiles : List (String × Json) → List (String × FileContent) →
    List (String × FileContent) × Bool
  | [], dir => (dir, true)
  | (name, data) :: rest, dir =>
    match data with
    | .obj kvs => writeCategoryFiles rest (writeFile dir name (some (newCategoryJson name kvs)))
    | _ => (dir, false)

/-- `_migrate_legacy_config`: read the legacy file, create the category
directory, write the extracted global settings, write one document per
legacy category, then rename the legacy file to the backup name.  Every
exception is caught (`except Exception`), leaving whatever was already
written: a parse failure changes nothing (the `json.load` precedes all
writes); a non-dict legacy document aborts after `mkdir`; a non-dict
`categories` value aborts after the global-settings write; a non-dict
category value aborts mid-loop.  The rename happens only on full success. -/
def migrate_legacy_config (fs : FS) : FS :=
  match fs.legacy with
  | none => fs
  | some none => fs
  | some (some legacy_data) =>
    let fs1 : FS := { fs with loraStyle := some (fs.loraStyle.getD []) }
    match legacy_data with
    | .obj kvs =>
      let gdoc : Json := .obj [("global_settings", (kvs.lookup "global_settings").getD (.obj []))]
      let fs2 : FS := { fs1 with globalFile := some (some gdoc) }
      match (kvs.lookup "categories").getD (.obj []) with
      | .obj centries =>
        let w := writeCategoryFiles centries (fs2.loraStyle.getD [])
        let fs3 : FS := { fs2 with loraStyle := some w.1 }
        if w.2 then { fs3 with legacy := none, backup := some (some legacy_data) } else fs3
      | _ => fs2
    | _ => fs1

/-! ## `ConfigManager.reload_config` (config_manager.py lines 42-70) -/

/-- The migration guard of `reload_config` (config_manager.py lines 51-52):
migrate exactly when the legacy file exists and the new-format directory
does not.  All exceptions are caught inside the callees, so the outer
`except` clauses of `reload_config` are never the deciding path. -/
def migration_step (fs : FS) : FS :=
  if fs.legacy.isSome && fs.loraStyle.isNone then migrate_legacy_config fs else fs

/-- `reload_config`, resumed: after the conditional migration, load global
settings (failure ⇒ `False`), then load the category files. -/
def reload_config (cs : ConfigState) (fs : FS) : Bool × ConfigState × FS :=
  let fs1 := migration_step fs
  let g := load_global_settings cs fs1
  if g.1 then load_category_files g.2.1 g.2.2 else (false, g.2.1, g.2.2)

/-- `ConfigManager.get_categories()` (config_manager.py lines 237-244):
returns a copy of `self.categories`. -/
def get_categories (cs : ConfigState) : List String := cs.categories

/-- The stems of the schema-valid parseable documents of a directory listing
(the set the spec says `get_categories` must equal after a reload). -/
def validStems (files : List (String × FileContent)) : List String :=
  (files.filter fun p =>
    match p.2 with
    | some j => validate_category_data j
    | none => false).map Prod.fst

/-- The cache bindings of the schema-valid parseable documents of a directory
listing. -/
def validCache (files : List (String × FileContent)) : List (String × Json) :=
  files.filterMap fun p =>
    match p.2 with
    | some j => if validate_category_data j then some (p.1, j) else none
    | none => none

/-- The success condition of `_load_global_settings`: the file is absent
(defaults get created) or parses to a dict. -/
def global_load_ok (fs : FS) : Bool :=
  match fs.globalFile with
  | none => true
  | some none => false
  | some (some (.obj _)) => true
  | some (some _) => false

/-- Whether a JSON value is an object. -/
def Json.isObj : Json → Bool
  | .obj _ => true
  | _ => false

/-- The entries of a JSON object (`[]` on non-objects). -/
def Json.objEntries : Json → List (String × Json)
  | .obj kvs => kvs
  | _ => []

/-! ## `LoRARandomSelector` node entry point (lora_random_selector.py)

External effects are parameters: `json_dumps` (the stdlib serializer — no
claim inspects the serialized text), `fileExists` (the filesystem behind
`Path.exists`), and `mtime` (`str(Path(__file__).stat().st_mtime)`).
The post-`reload_config` category store is the parameter `get_loras`,
standing for `config_manager.get_category_loras` (the reload result itself
is ignored by the source, line 150). -/

/-- Abstract external environment of one node invocation. -/
structure Env where
  json_dumps : Json → String
  fileExists : String → Bool
  mtime : String

/-- The six-value return shape of the node
(`selected_lora_info, lora_path, lora_strength, trigger_words,
combined_prompt, debug_info`). -/
abbrev Out6 := String × String × ℚ × String × String × String

/-- `f"カテゴリ '{category}' にLoRAが見つかりません"` (line 155). -/
def lora_not_found_msg (category : String) : String :=
  "カテゴリ \x27" ++ category ++ "\x27 にLoRAが見つかりません"

/-- `"LoRAの選択に失敗しました"` (line 170). -/
def selection_failed_msg : String := "LoRAの選択に失敗しました"

/-- `f"LoRA選択中にエラーが発生: {str(e)}"` (line 240). -/
def runtime_error_msg (e : String) : String := "LoRA選択中にエラーが発生: " ++ e

/-- `LoRARandomSelector._create_error_response(error_msg)`
(lora_random_selector.py lines 261-285). -/
def create_error_response (env : Env) (error_msg : String) : Out6 :=
  let error_info : Json := .obj
    [("error", .bool true),
     ("message", .str error_msg),
     ("selected_count", .num 0),
     ("loras", .arr [])]
  (env.json_dumps error_info, "", 7/10, "", error_msg, error_msg)

/-- `LoRARandomSelector._get_lora_name_for_loader(selected_lora)`
(lines 244-259): the raw `file_path` if truthy, else the LoRA name. -/
def get_lora_name_for_loader (selected_lora : String × LoRAEntry) : String :=
  let file_path := selected_lora.2.file_path.getD ""
  if file_path ≠ "" then file_path else selected_lora.1

/-- Python `zip` over four lists (truncates to the shortest). -/
def zip4 {α β γ δ : Type} : List α → List β → List γ → List δ → List (α × β × γ × δ)
  | a :: as, b :: bs, c :: cs, d :: ds => (a, b, c, d) :: zip4 as bs cs ds
  | _, _, _, _ => []

/-- `json.dumps` rendering of the `seed` variable (`None` ⇒ `null`). -/
def seedJson : Option Int → Json
  | none => .null
  | some s => .num (s : ℚ)

/-- `LoRARandomSelector._create_debug_info(...)` (lines 287-335), up to the
serialization step. -/
def create_debug_info (mtime : String) (selected_loras : List (String × LoRAEntry))
    (strengths : List ℚ) (trigger_words_list : List (List String))
    (validation_results : List Bool) (seed : Option Int) : Json :=
  let rows := zip4 selected_loras strengths trigger_words_list validation_results
  let fileval := rows.map fun r =>
    (r.1.1, Json.obj [("path", .str (r.1.2.file_path.getD "")),
                      ("exists", .bool r.2.2.2)])
  let details := rows.enum.map fun q => Json.obj
    [("index", .num (q.1 : ℚ)),
     ("name", .str q.2.1.1),
     ("strength", .num q.2.2.1),
     ("trigger_words", .arr (q.2.2.2.1.map .str)),
     ("file_exists", .bool q.2.2.2.2)]
  .obj [("execution_info", .obj
          [("seed_used", seedJson seed),
           ("loras_selected", .num (selected_loras.length : ℚ)),
           ("timestamp", .str mtime)]),
        ("file_validation", .obj fileval),
        ("details", .arr details)]

/-- The per-entry trigger-word loop (lines 183-190), threading the global
generator state; any `ValueError` from `random.sample` escapes the loop. -/
def trigger_words_loop (R : RandomModel) (g : RNG)
    (selected : List (String × LoRAEntry)) (count : Int) (seed : Option Int) :
    Except String (List (List String) × RNG) :=
  match selected with
  | [] => .ok ([], g)
  | p :: rest =>
    match select_trigger_words R g p.2 count seed with
    | .error e => .error e
    | .ok wg =>
      match trigger_words_loop R wg.2 rest count seed with
      | .error e => .error e
      | .ok rr => .ok (wg.1 :: rr.1, rr.2)

/-- `formatted_info.get('all_trigger_words', '')`: the built object always
carries a string under that key; the `''` default covers the absent case. -/
def jsonGetStr (j : Json) (key : String) : String :=
  match j.lookup key with
  | some (.str s) => s
  | _ => ""

/-- `LoRARandomSelector.select_random_lora(...)` (lines 123-242), the node
entry point.  All fallible inner steps are matched on explicitly; the
`except` at the boundary maps any escaping error to
`_create_error_response` (lines 239-242), so the model is a total function
into the six-value shape. -/
def node_select (env : Env) (R : RandomModel) (g : RNG)
    (get_loras : String → List (String × LoRAEntry))
    (category : String) (num_loras : Int) (trigger_word_count : Int) (seed : Int)
    (enable_trigger_words : Bool) (strength_override : ℚ)
    (base_prompt : String) : Out6 :=
  let loras := get_loras category
  if loras = [] then create_error_response env (lora_not_found_msg category)
  else
    let actual_seed : Option Int := if seed < 0 then none else some seed
    match select_random_lora R g loras num_loras actual_seed with
    | .error e => create_error_response env (runtime_error_msg e)
    | .ok sg =>
      let selected_loras := sg.1
      if selected_loras = [] then create_error_response env selection_failed_msg
      else
        let strength_override_value : Option ℚ :=
          if 0 < strength_override then some strength_override else none
        let strengths := calculate_weighted_strength selected_loras strength_override_value
        let tw :=
          if enable_trigger_words && decide (0 < trigger_word_count) then
            trigger_words_loop R sg.2 selected_loras trigger_word_count actual_seed
          else .ok (selected_loras.map fun _ => [], sg.2)
        match tw with
        | .error e => create_error_response env (runtime_error_msg e)
        | .ok twg =>
          let trigger_words_list := twg.1
          let formatted_info := format_lora_info selected_loras strengths trigger_words_list
          let validation_results := validate_lora_paths env.fileExists selected_loras
          let selected_lora_info := env.json_dumps formatted_info
          let lora_path :=
            match selected_loras with
            | p :: _ => get_lora_name_for_loader p
            | [] => ""
          let lora_strength : ℚ :=
            match strengths with
            | s :: _ => s
            | [] => 7/10
          let trigger_words := jsonGetStr formatted_info "all_trigger_words"
          let combined_prompt :=
            clean_prompt (build_combined_prompt base_prompt trigger_words "beginning")
          let debug_info := env.json_dumps (create_debug_info env.mtime selected_loras
            strengths trigger_words_list validation_results actual_seed)
          (selected_lora_info, lora_path, lora_strength, trigger_words,
           combined_prompt, debug_info)

/-! # Theorems -/

/-! ## Sampler facts -/

theorem takeSampler_ok : SampleOK takeSampler := by
  intro α g pop k hk
  constructor
  · simpa [takeSampler] using List.length_take_of_le hk
  · exact List.Sublist.subperm (List.take_sublist k pop)

/-! ## `calculate_weighted_strength` (claims C3, C10) -/

/-- Pointwise description of `calculate_weighted_strength`. -/
theorem calculate_weighted_strength_getD (l : List (String × LoRAEntry)) (o : Option ℚ)
    (i : Nat) (hi : i < l.length) :
    (calculate_weighted_strength l o).getD i 0
      = max (1/10) (min 2 (baseStrength (l.getD i default).2 o)) := by
  induction l generalizing i with
  | nil => simp at hi
  | cons p rest ih =>
    cases i with
    | zero => simp [calculate_weighted_strength]
    | succ n =>
      have hn : n < rest.length := by simpa using hi
      simpa [calculate_weighted_strength] using ih n hn

/-- Every produced strength lies in the closed interval `[0.1, 2.0]`. -/
theorem calculate_weighted_strength_bounds (l : List (String × LoRAEntry)) (o : Option ℚ) :
    ∀ x ∈ calculate_weighted_strength l o, 1/10 ≤ x ∧ x ≤ 2 := by
  intro x hx
  simp only [calculate_weighted_strength, List.mem_map] at hx
  obtain ⟨p, hp, rfl⟩ := hx
  exact ⟨le_max_left _ _, max_le (by norm_num) (min_le_left _ _)⟩

/-- C3: for every selected-LoRA list and override, `calculate_weighted_strength`
returns a list parallel to the selection; each element is the clamp to
`[0.1, 2.0]` of the override when the override is provided and positive, and
of the entry's own `strength_default` (default `0.7`) otherwise; and every
returned element lies in `[0.1, 2.0]` for arbitrary inputs. -/
theorem C3_weighted_strength (selected_loras : List (String × LoRAEntry))
    (strength_override : Option ℚ) :
    (calculate_weighted_strength selected_loras strength_override).length
        = selected_loras.length ∧
    (∀ i, i < selected_loras.length → ∀ o : ℚ, strength_override = some o → 0 < o →
      (calculate_weighted_strength selected_loras strength_override).getD i 0
        = max (1/10) (min 2 o)) ∧
    (∀ i, i < selected_loras.length →
      (strength_override = none ∨ ∃ o : ℚ, strength_override = some o ∧ ¬0 < o) →
      (calculate_weighted_strength selected_loras strength_override).getD i 0
        = max (1/10) (min 2
            ((selected_loras.getD i default).2.strength_default.getD (7/10)))) ∧
    (∀ x ∈ calculate_weighted_strength selected_loras strength_override,
      1/10 ≤ x ∧ x ≤ 2) := by
  refine ⟨by simp [calculate_weighted_strength], ?_, ?_,
    calculate_weighted_strength_bounds _ _⟩
  · rintro i hi o rfl ho
    rw [calculate_weighted_strength_getD _ _ i hi]
    simp [baseStrength, ho]
  · rintro i hi (rfl | ⟨o, rfl, ho⟩)
    · rw [calculate_weighted_strength_getD _ _ i hi]
      simp [baseStrength]
    · rw [calculate_weighted_strength_getD _ _ i hi]
      simp [baseStrength, ho]

theorem C3_weighted_strength_witness :
    (calculate_weighted_strength [("a", ⟨none, some 5, none, none⟩)] (some 5)).getD 0 0
      = max (1/10) (min 2 5) :=
  (C3_weighted_strength [("a", ⟨none, some 5, none, none⟩)] (some 5)).2.1 0
    (by decide) 5 rfl (by norm_num)

/-- C10: if a selected entry's record lacks `strength_default` and no positive
override is given, the entry's strength is `0.7` (which the clamp to
`[0.1, 2.0]` leaves unchanged); the function is total over such records. -/
theorem C10_missing_strength_default (selected_loras : List (String × LoRAEntry))
    (strength_override : Option ℚ) (i : Nat) (hi : i < selected_loras.length)
    (hmiss : (selected_loras.getD i default).2.strength_default = none)
    (hover : strength_override = none ∨ ∃ o : ℚ, strength_override = some o ∧ o ≤ 0) :
    (calculate_weighted_strength selected_loras strength_override).getD i 0 = 7/10 := by
  rw [calculate_weighted_strength_getD _ _ i hi]
  rcases hover with rfl | ⟨o, rfl, ho⟩
  · rw [baseStrength, hmiss]
    norm_num
  · rw [baseStrength, if_neg (by exact not_lt.mpr ho), hmiss]
    norm_num

/-! ## `select_random_lora` / `select_trigger_words` (claims C1, C6) -/

/-- Nodup transfers along `Subperm`. -/
theorem subperm_nodup {α : Type} {l₁ l₂ : List α} (h : List.Subperm l₁ l₂)
    (h₂ : l₂.Nodup) : l₁.Nodup := by
  obtain ⟨l, hperm, hsub⟩ := h
  exact hperm.nodup (hsub.nodup h₂)

/-- Behaviour of `select_random_lora` for non-negative requested counts:
no error, exactly `min(count, M)` entries, drawn without replacement. -/
theorem select_random_lora_spec (R : RandomModel) (hR : SampleOK R) (g : RNG)
    (loras : List (String × LoRAEntry)) (count : Int) (seed : Option Int)
    (hcount : 0 ≤ count) :
    ∃ res g2, select_random_lora R g loras count seed = .ok (res, g2) ∧
      res.length = min count.toNat loras.length ∧
      List.Subperm res loras ∧
      ((count = 0 ∨ loras = []) → res = []) := by
  by_cases hl : loras = []
  · subst hl
    exact ⟨[], g, by simp [select_random_lora], by simp, List.nil_subperm, fun _ => rfl⟩
  · have hM : 0 < (loras.length : Int) := by
      exact_mod_cast List.length_pos.mpr hl
    by_cases hc0 : min count (loras.length : Int) = 0
    · refine ⟨[], pySeed R g seed, ?_, ?_, List.nil_subperm, fun _ => rfl⟩
      · simp only [select_random_lora, if_neg hl]
        simp [hc0]
      · simp only [List.length_nil]
        omega
    · by_cases hcM : min count (loras.length : Int) = (loras.length : Int)
      · refine ⟨loras, pySeed R g seed, ?_, ?_, List.Subperm.refl loras, ?_⟩
        · simp only [select_random_lora, if_neg hl]
          simp [hc0, hcM]
        · omega
        · rintro (rfl | h)
          · omega
          · exact absurd h hl
      · have hcond1 : 0 ≤ min count (loras.length : Int) := by omega
        have hcond2 : min count (loras.length : Int) ≤ (loras.length : Int) := by omega
        have hk : (min count (loras.length : Int)).toNat ≤ loras.length := by omega
        obtain ⟨hlen, hsub⟩ :=
          hR (pySeed R g seed) loras (min count (loras.length : Int)).toNat hk
        refine ⟨(R.sample (pySeed R g seed) loras (min count (loras.length : Int)).toNat).1,
          (R.sample (pySeed R g seed) loras (min count (loras.length : Int)).toNat).2,
          ?_, ?_, hsub, ?_⟩
        · simp only [select_random_lora, if_neg hl]
          simp [hc0, hcM, pySample, hcond1, hcond2]
        · rw [hlen]
          omega
        · rintro (rfl | h)
          · omega
          · exact absurd h hl

/-- C1 (amended): with a sound `random.sample`, `select_random_lora` returns,
without error, an ordered sequence of exactly `min(count, M)` pairwise-distinct
pairs drawn from the mapping, for every requested count `count ≥ 0` and any
seed; `count = 0` or `M = 0` yields an empty result without error; and
`select_trigger_words` with `count = 0` likewise returns an empty list without
error, as does any count over an entry without trigger words.  (The original
claim extended the empty-without-error policy to every `count ≤ 0`, which is
refuted by `C1_counterexample`: a negative count over a non-empty mapping
reaches `random.sample`, which raises `ValueError`.) -/
theorem C1_select_random_min_count (R : RandomModel) (hR : SampleOK R) (g : RNG)
    (loras : List (String × LoRAEntry)) (count : Int) (seed : Option Int)
    (hcount : 0 ≤ count) :
    (∃ res g2, select_random_lora R g loras count seed = .ok (res, g2) ∧
      res.length = min count.toNat loras.length ∧
      List.Subperm res loras ∧
      (loras.Nodup → res.Nodup) ∧
      ((count = 0 ∨ loras = []) → res = [])) ∧
    (∀ info : LoRAEntry, ∃ g2,
      select_trigger_words R g info 0 seed = .ok ([], g2)) ∧
    (∀ info : LoRAEntry, info.trigger_words.getD [] = [] → ∀ c : Int,
      select_trigger_words R g info c seed = .ok ([], g)) := by
  refine ⟨?_, ?_, ?_⟩
  · obtain ⟨res, g2, heq, hlen, hsub, hemp⟩ :=
      select_random_lora_spec R hR g loras count seed hcount
    exact ⟨res, g2, heq, hlen, hsub, fun hnd => subperm_nodup hsub hnd, hemp⟩
  · intro info
    by_cases ht : info.trigger_words.getD [] = []
    · exact ⟨g, by simp [select_trigger_words, ht]⟩
    · have hM : 0 < ((info.trigger_words.getD []).length : Int) := by
        exact_mod_cast List.length_pos.mpr ht
      refine ⟨pySeed R g seed, ?_⟩
      have h0 : min (0 : Int) ((info.trigger_words.getD []).length : Int) = 0 := by
        omega
      simp only [select_trigger_words, if_neg ht]
      simp [h0]
  · intro info ht c
    simp [select_trigger_words, ht]

theorem C1_counterexample :
    select_random_lora takeSampler 0 [("a", ⟨none, none, none, none⟩)] (-1) none
      = .error "Sample larger than population or is negative" := rfl

theorem C1_witness :
    0 ≤ (2 : Int) ∧
    (∃ res g2,
      select_random_lora takeSampler 0
        [("a", ⟨none, none, none, none⟩), ("b", ⟨none, none, none, none⟩),
         ("c", ⟨none, none, none, none⟩)] 2 (some 5) = .ok (res, g2) ∧
      res.length = min (2 : Int).toNat 3 ∧
      List.Subperm res
        [("a", ⟨none, none, none, none⟩), ("b", ⟨none, none, none, none⟩),
         ("c", ⟨none, none, none, none⟩)] ∧
      ([("a", (⟨none, none, none, none⟩ : LoRAEntry)), ("b", ⟨none, none, none, none⟩),
         ("c", ⟨none, none, none, none⟩)].Nodup → res.Nodup) ∧
      (((2 : Int) = 0 ∨
        [("a", (⟨none, none, none, none⟩ : LoRAEntry)), ("b", ⟨none, none, none, none⟩),
         ("c", ⟨none, none, none, none⟩)] = []) → res = [])) :=
  ⟨by norm_num,
   (C1_select_random_min_count takeSampler takeSampler_ok 0
     [("a", ⟨none, none, none, none⟩), ("b", ⟨none, none, none, none⟩),
      ("c", ⟨none, none, none, none⟩)] 2 (some 5) (by norm_num)).1⟩

/-- C6: for a fixed seed `s ≥ 0` and identical inputs, `select_random_lora`
and `select_trigger_words` return equal results regardless of the incoming
generator state (the call re-seeds the process generator, so two calls with
the same seed agree). -/
theorem C6_seed_deterministic (R : RandomModel) (g g2 : RNG)
    (loras : List (String × LoRAEntry)) (info : LoRAEntry) (count : Int)
    (s : Int) (hs : 0 ≤ s) :
    (select_random_lora R g loras count (some s)).map Prod.fst
      = (select_random_lora R g2 loras count (some s)).map Prod.fst ∧
    (select_trigger_words R g info count (some s)).map Prod.fst
      = (select_trigger_words R g2 info count (some s)).map Prod.fst := by
  constructor
  · by_cases hl : loras = []
    · simp [select_random_lora, hl, Except.map]
    · simp [select_random_lora, hl, pySeed, hs, Except.map]
  · by_cases ht : info.trigger_words.getD [] = []
    · simp [select_trigger_words, ht, Except.map]
    · simp [select_trigger_words, ht, pySeed, hs, Except.map]

theorem C6_witness :
    (select_random_lora takeSampler 0 [("a", ⟨none, none, none, none⟩)] 1
        (some 7)).map Prod.fst
      = (select_random_lora takeSampler 99 [("a", ⟨none, none, none, none⟩)] 1
        (some 7)).map Prod.fst :=
  (C6_seed_deterministic takeSampler 0 99 [("a", ⟨none, none, none, none⟩)]
    ⟨none, none, none, none⟩ 1 7 (by norm_num)).1

theorem C10_missing_strength_default_witness :
    (calculate_weighted_strength [("a", ⟨none, none, none, none⟩)] none).getD 0 0
      = 7/10 :=
  C10_missing_strength_default [("a", ⟨none, none, none, none⟩)] none 0
    (by decide) rfl (Or.inl rfl)

/-! ## `build_combined_prompt` (claim C8) -/

/-- C8: `build_combined_prompt` returns `base` unchanged whenever the stripped
trigger string is empty; otherwise it concatenates the stripped strings as
`"{triggers}, {base}"` for position `beginning`, `"{base}, {triggers}"` for
`end`, `"{triggers}, {base}, {triggers}"` for `both` (just the triggers when
the stripped base is empty, for every position), any other position value
behaves like `beginning`; and the two concrete examples of the spec hold. -/
theorem C8_build_combined_prompt (base_prompt trigger_words position : String) :
    (pyStrip trigger_words = "" →
      build_combined_prompt base_prompt trigger_words position = base_prompt) ∧
    (pyStrip trigger_words ≠ "" → pyStrip base_prompt ≠ "" →
      build_combined_prompt base_prompt trigger_words "beginning"
        = pyStrip trigger_words ++ ", " ++ pyStrip base_prompt) ∧
    (pyStrip trigger_words ≠ "" → pyStrip base_prompt ≠ "" →
      build_combined_prompt base_prompt trigger_words "end"
        = pyStrip base_prompt ++ ", " ++ pyStrip trigger_words) ∧
    (pyStrip trigger_words ≠ "" → pyStrip base_prompt ≠ "" →
      build_combined_prompt base_prompt trigger_words "both"
        = pyStrip trigger_words ++ ", " ++ pyStrip base_prompt ++ ", "
          ++ pyStrip trigger_words) ∧
    (pyStrip trigger_words ≠ "" → pyStrip base_prompt = "" →
      build_combined_prompt base_prompt trigger_words position
        = pyStrip trigger_words) ∧
    (position ≠ "beginning" → position ≠ "end" → position ≠ "both" →
      build_combined_prompt base_prompt trigger_words position
        = build_combined_prompt base_prompt trigger_words "beginning") ∧
    build_combined_prompt "cat, cute" "red hair, blue eyes" "beginning"
      = "red hair, blue eyes, cat, cute" ∧
    build_combined_prompt "" "red hair, blue eyes" "beginning"
      = "red hair, blue eyes" := by
  refine ⟨?_, ?_, ?_, ?_, ?_, ?_, by decide, by decide⟩
  · intro ht
    simp [build_combined_prompt, ht]
  · intro ht hb
    simp [build_combined_prompt, ht, hb]
  · intro ht hb
    simp [build_combined_prompt, ht, hb]
  · intro ht hb
    simp [build_combined_prompt, ht, hb]
  · intro ht hb
    simp [build_combined_prompt, ht, hb]
  · intro h1 h2 h3
    by_cases ht : pyStrip trigger_words = ""
    · simp [build_combined_prompt, ht]
    · simp [build_combined_prompt, ht, h1, h2, h3]

theorem C8_build_combined_prompt_witness :
    build_combined_prompt "base text" "word" "end"
      = pyStrip "base text" ++ ", " ++ pyStrip "word" :=
  (C8_build_combined_prompt "base text" "word" "end").2.2.1
    (by decide) (by decide)

/-! ## `clean_prompt` (claim C9) -/

theorem splitCommaAux_append_of_not_comma (w : List Char) (l : List Char)
    (hw : ',' ∉ w) :
    splitCommaAux (w ++ l) = (w ++ (splitCommaAux l).1, (splitCommaAux l).2) := by
  induction w with
  | nil => simp
  | cons c w ih =>
    have hc : ¬(c = ',') := fun h => hw (by simp [h])
    have hw' : ',' ∉ w := fun h => hw (List.mem_cons_of_mem _ h)
    simp [splitCommaAux, ih hw', hc]

theorem splitCommaAux_of_not_comma (w : List Char) (hw : ',' ∉ w) :
    splitCommaAux w = (w, []) := by
  simpa [splitCommaAux] using splitCommaAux_append_of_not_comma w [] hw

theorem splitCommaAux_comma_cons (l : List Char) :
    splitCommaAux (',' :: l) = ([], (splitCommaAux l).1 :: (splitCommaAux l).2) := by
  simp [splitCommaAux]

/-- Every segment produced by splitting at commas is comma-free. -/
theorem splitCommaAux_no_comma (l : List Char) :
    ',' ∉ (splitCommaAux l).1 ∧ ∀ s ∈ (splitCommaAux l).2, ',' ∉ s := by
  induction l with
  | nil => simp [splitCommaAux]
  | cons c cs ih =>
    by_cases hc : c = ','
    · subst hc
      refine ⟨by simp [splitCommaAux], ?_⟩
      intro s hs
      rw [splitCommaAux_comma_cons] at hs
      rcases List.mem_cons.mp hs with rfl | hs
      · exact ih.1
      · exact ih.2 s hs
    · constructor
      · simp only [splitCommaAux, if_neg hc]
        intro hmem
        rcases List.mem_cons.mp hmem with h | h
        · exact hc h.symm
        · exact ih.1 h
      · simp only [splitCommaAux, if_neg hc]
        exact ih.2

theorem stripL_eq_rdropWhile (l : List Char) :
    stripL l = List.rdropWhile pySpaceChar (l.dropWhile pySpaceChar) := rfl

theorem stripL_cons_space (w : List Char) : stripL (' ' :: w) = stripL w := by
  simp [stripL, List.dropWhile_cons, pySpaceChar]

theorem stripL_sublist (l : List Char) : List.Sublist (stripL l) l := by
  have h1 : List.Sublist ((l.dropWhile pySpaceChar).reverse.dropWhile pySpaceChar)
      ((l.dropWhile pySpaceChar).reverse) := List.dropWhile_sublist _
  have h2 := h1.reverse
  rw [List.reverse_reverse] at h2
  exact h2.trans (List.dropWhile_sublist _)

/-- Dropping from the right commutes with a comma-free head that fails the
predicate. -/
theorem rdropWhile_cons_of_neg (p : Char → Bool) (c : Char) (u : List Char)
    (hc : p c = false) :
    List.rdropWhile p (c :: u) = c :: List.rdropWhile p u := by
  unfold List.rdropWhile
  rw [show (c :: u).reverse = u.reverse ++ [c] by simp]
  rw [List.dropWhile_append]
  by_cases he : (u.reverse.dropWhile p).isEmpty
  · simp [he, List.dropWhile, hc, List.isEmpty_iff.mp he]
  · simp [he]

/-- The stripped string has no leading whitespace. -/
theorem stripL_dropWhile_self (l : List Char) :
    (stripL l).dropWhile pySpaceChar = stripL l := by
  rw [stripL_eq_rdropWhile]
  cases hd : l.dropWhile pySpaceChar with
  | nil => simp [List.rdropWhile]
  | cons c u =>
    have hc : pySpaceChar c = false := by
      have hne : l.dropWhile pySpaceChar ≠ [] := by simp [hd]
      have h1 := List.head_dropWhile_not pySpaceChar l hne
      have hceq : (List.dropWhile pySpaceChar l).head hne = c := by simp [hd]
      rwa [hceq] at h1
    rw [rdropWhile_cons_of_neg _ _ _ hc, List.dropWhile_cons, hc]
    simp

theorem stripL_idem (l : List Char) : stripL (stripL l) = stripL l := by
  conv_lhs => rw [stripL_eq_rdropWhile (stripL l), stripL_dropWhile_self]
  rw [stripL_eq_rdropWhile l, List.rdropWhile_idempotent]

/-- Splitting the `", "`-join of comma-free segments recovers the segments,
each non-first one prefixed by the separator's space. -/
theorem splitCommaL_joinCommaSpace (ws : List (List Char)) :
    ∀ w, ',' ∉ w → (∀ v ∈ ws, ',' ∉ v) →
      splitCommaL (joinCommaSpace (w :: ws)) = w :: ws.map (fun v => ' ' :: v) := by
  induction ws with
  | nil =>
    intro w hw _
    simp [joinCommaSpace, splitCommaL, splitCommaAux_of_not_comma w hw]
  | cons w2 ws ih =>
    intro w hw hws
    have hw2 : ',' ∉ w2 := hws w2 (by simp)
    have hws' : ∀ v ∈ ws, ',' ∉ v := fun v hv => hws v (by simp [hv])
    have hrest := ih (' ' :: w2) (by simp [hw2]) hws'
    have haux : splitCommaAux (joinCommaSpace ((' ' :: w2) :: ws))
        = (' ' :: w2, ws.map (fun v => ' ' :: v)) := by
      have hr : (splitCommaAux (joinCommaSpace ((' ' :: w2) :: ws))).1
            :: (splitCommaAux (joinCommaSpace ((' ' :: w2) :: ws))).2
          = (' ' :: w2) :: ws.map (fun v => ' ' :: v) := by
        simpa [splitCommaL] using hrest
      have h1 := (List.cons.inj hr).1
      have h2 := (List.cons.inj hr).2
      exact Prod.ext_iff.mpr ⟨h1, h2⟩
    have hjoin : joinCommaSpace (w :: w2 :: ws)
        = w ++ (',' :: joinCommaSpace ((' ' :: w2) :: ws)) := by
      cases ws <;> simp [joinCommaSpace]
    rw [hjoin, splitCommaL, splitCommaAux_append_of_not_comma _ _ hw,
      splitCommaAux_comma_cons, haux]
    simp

theorem partsL_mem_split (l : List Char) {w : List Char} (hw : w ∈ partsL l) :
    ∃ s, (s = (splitCommaAux l).1 ∨ s ∈ (splitCommaAux l).2) ∧ w = stripL s ∧ w ≠ [] := by
  simp only [partsL, List.mem_filter, List.mem_map, splitCommaL] at hw
  obtain ⟨⟨s, hs, rfl⟩, hne⟩ := hw
  exact ⟨s, List.mem_cons.mp hs, rfl, by simpa using hne⟩

/-- Every element of `partsL l` is comma-free. -/
theorem partsL_no_comma (l : List Char) : ∀ w ∈ partsL l, ',' ∉ w := by
  intro w hw hmem
  obtain ⟨s, hs, rfl, _⟩ := partsL_mem_split l hw
  have hin : ',' ∈ s := (stripL_sublist s).subset hmem
  rcases hs with rfl | hs
  · exact (splitCommaAux_no_comma l).1 hin
  · exact (splitCommaAux_no_comma l).2 s hs hin

/-- Every element of `partsL l` is already stripped. -/
theorem partsL_stripped (l : List Char) : ∀ w ∈ partsL l, stripL w = w := by
  intro w hw
  obtain ⟨s, _, rfl, _⟩ := partsL_mem_split l hw
  exact stripL_idem s

theorem partsL_ne_nil (l : List Char) : ∀ w ∈ partsL l, w ≠ [] := by
  intro w hw
  obtain ⟨s, _, _, hne⟩ := partsL_mem_split l hw
  exact hne

/-- The segment decomposition of a cleaned prompt is the decomposition of the
original prompt: cleaning is a projection. -/
theorem partsL_cleanL (l : List Char) : partsL (cleanL l) = partsL l := by
  cases hws : partsL l with
  | nil =>
    rw [cleanL, hws]
    rfl
  | cons w ws =>
    have hmemw : w ∈ partsL l := by rw [hws]; simp
    have hmemws : ∀ v ∈ ws, v ∈ partsL l := by
      intro v hv
      rw [hws]
      simp [hv]
    rw [cleanL, hws, partsL,
      splitCommaL_joinCommaSpace ws w (partsL_no_comma l w hmemw)
        (fun v hv => partsL_no_comma l v (hmemws v hv))]
    simp only [List.map_cons, List.map_map]
    rw [partsL_stripped l w hmemw]
    have hmap : ws.map (stripL ∘ fun v => ' ' :: v) = ws := by
      have hcong : ∀ v ∈ ws, (stripL ∘ fun u => ' ' :: u) v = id v := by
        intro v hv
        simp only [Function.comp, id]
        rw [stripL_cons_space]
        exact partsL_stripped l v (hmemws v hv)
      rw [List.map_congr_left hcong, List.map_id]
    rw [hmap]
    rw [List.filter_eq_self.mpr]
    intro a ha
    rcases List.mem_cons.mp ha with rfl | ha
    · simpa using partsL_ne_nil l a hmemw
    · simpa using partsL_ne_nil l a (hmemws a ha)

theorem cleanL_idem (l : List Char) : cleanL (cleanL l) = cleanL l := by
  conv_lhs => rw [cleanL, partsL_cleanL]
  rfl

/-- C9: `clean_prompt` splits its input at commas, strips each segment, drops
the empty segments and rejoins with `", "` (its definition); it is idempotent,
and `clean_prompt " a ,, b ,c, " = "a, b, c"`. -/
theorem C9_clean_prompt_idempotent :
    (∀ x : String, clean_prompt (clean_prompt x) = clean_prompt x) ∧
    clean_prompt " a ,, b ,c, " = "a, b, c" := by
  have hclean : ∀ y : String, y ≠ "" → clean_prompt y = String.mk (cleanL y.data) := by
    intro y hy
    rw [clean_prompt, if_neg hy]
  constructor
  · intro x
    by_cases hx : x = ""
    · simp [clean_prompt, hx]
    · rw [hclean x hx]
      by_cases h2 : String.mk (cleanL x.data) = ""
      · rw [h2]
        rfl
      · rw [hclean _ h2]
        show String.mk (cleanL (cleanL x.data)) = String.mk (cleanL x.data)
        rw [cleanL_idem]
  · decide

/-! ## `reload_config` and category loading (claims C4, C5) -/

theorem scanCategories_eq (files : List (String × FileContent)) :
    scanCategories files = (validStems files, validCache files) := by
  induction files with
  | nil => rfl
  | cons p rest ih =>
    obtain ⟨stem, content⟩ := p
    cases content with
    | none => simpa [scanCategories, validStems, validCache] using ih
    | some j =>
      by_cases hv : validate_category_data j
      · simp [scanCategories, validStems, validCache, hv, ih]
      · simp [scanCategories, validStems, validCache, hv, ih]

theorem load_global_settings_fst (cs : ConfigState) (fs : FS) :
    (load_global_settings cs fs).1 = global_load_ok fs := by
  obtain ⟨leg, ls, gf, bu⟩ := fs
  cases gf with
  | none => rfl
  | some c =>
    cases c with
    | none => rfl
    | some j => cases j <;> rfl

theorem load_global_settings_loraStyle (cs : ConfigState) (fs : FS) :
    (load_global_settings cs fs).2.2.loraStyle = fs.loraStyle := by
  obtain ⟨leg, ls, gf, bu⟩ := fs
  cases gf with
  | none => rfl
  | some c =>
    cases c with
    | none => rfl
    | some j => cases j <;> rfl

theorem load_global_settings_keeps_cats (cs : ConfigState) (fs : FS) :
    (load_global_settings cs fs).2.1.categories = cs.categories ∧
    (load_global_settings cs fs).2.1.category_cache = cs.category_cache := by
  obtain ⟨leg, ls, gf, bu⟩ := fs
  cases gf with
  | none => exact ⟨rfl, rfl⟩
  | some c =>
    cases c with
    | none => exact ⟨rfl, rfl⟩
    | some j => cases j <;> exact ⟨rfl, rfl⟩

theorem load_category_files_none (cs : ConfigState) (fs : FS)
    (h : fs.loraStyle = none) :
    load_category_files cs fs
      = (true, cs, { fs with loraStyle := some [("character", some defaultCharacterJson)] }) := by
  rw [load_category_files, h]

theorem load_category_files_some (cs : ConfigState) (fs : FS)
    (files : List (String × FileContent)) (h : fs.loraStyle = some files) :
    load_category_files cs fs
      = (!(validStems files).isEmpty,
         { cs with categories := validStems files, category_cache := validCache files },
         fs) := by
  rw [load_category_files, h]
  simp [scanCategories_eq]

/-- C4: `reload_config` returns `False` exactly when the global-settings load
fails (unparseable or non-dict document) or when the category directory exists
after the migration step but holds zero schema-valid documents; every other
path — including the directory-missing path that creates the default
documents — returns `True`. -/
theorem C4_reload_false_iff (cs : ConfigState) (fs : FS) :
    ((reload_config cs fs).1 = false ↔
      (global_load_ok (migration_step fs) = false ∨
        (∃ files, (migration_step fs).loraStyle = some files ∧ validStems files = []))) ∧
    (global_load_ok (migration_step fs) = true → (migration_step fs).loraStyle = none →
      (reload_config cs fs).1 = true) := by
  have hmain : (reload_config cs fs).1 = false ↔
      (global_load_ok (migration_step fs) = false ∨
        (∃ files, (migration_step fs).loraStyle = some files ∧ validStems files = [])) := by
    rw [reload_config]
    cases hg : global_load_ok (migration_step fs) with
    | false =>
      have h1 : (load_global_settings cs (migration_step fs)).1 = false := by
        rw [load_global_settings_fst, hg]
      simp [h1]
    | true =>
      have h1 : (load_global_settings cs (migration_step fs)).1 = true := by
        rw [load_global_settings_fst, hg]
      simp only [h1, if_true]
      cases hls : (migration_step fs).loraStyle with
      | none =>
        have h2 : (load_global_settings cs (migration_step fs)).2.2.loraStyle = none := by
          rw [load_global_settings_loraStyle, hls]
        rw [load_category_files_none _ _ h2]
        simp [hls]
      | some files =>
        have h2 : (load_global_settings cs (migration_step fs)).2.2.loraStyle
            = some files := by
          rw [load_global_settings_loraStyle, hls]
        rw [load_category_files_some _ _ files h2]
        simp only [hls]
        constructor
        · intro hfalse
          refine Or.inr ⟨files, rfl, ?_⟩
          have := List.isEmpty_iff.mp (by simpa using hfalse)
          exact this
        · rintro (h | ⟨files2, hfeq, hemp⟩)
          · simp at h
          · have : files2 = files := by
              injection hfeq with h
              exact h.symm
            subst this
            simp [List.isEmpty_iff, hemp]
  refine ⟨hmain, ?_⟩
  intro hg hls
  cases hb : (reload_config cs fs).1 with
  | true => rfl
  | false =>
    rcases hmain.mp hb with h | ⟨files, hf, _⟩
    · rw [hg] at h
      exact absurd h (by simp)
    · rw [hls] at hf
      exact absurd hf (by simp)

theorem C4_reload_witness :
    global_load_ok (migration_step ⟨none, none, none, none⟩) = true ∧
    (migration_step ⟨none, none, none, none⟩).loraStyle = none ∧
    (reload_config ⟨.obj [], [], []⟩ ⟨none, none, none, none⟩).1 = true :=
  ⟨rfl, rfl,
   (C4_reload_false_iff ⟨.obj [], [], []⟩ ⟨none, none, none, none⟩).2 rfl rfl⟩

/-- C5 counterexample: a store that had registered category `"x"` is reloaded
while the category directory is missing.  `_load_category_files` creates the
directory with the default `character.json` (a schema-valid document) and
returns without touching `categories`, so `get_categories` still yields
`["x"]` although the set of schema-valid documents now in the directory is
`["character"]` — refuting the claim that the previous cache is always fully
replaced by the directory contents. -/
theorem C5_counterexample :
    get_categories
        (reload_config ⟨.obj [], ["x"], [("x", .obj [])]⟩ ⟨none, none, none, none⟩).2.1
      = ["x"] ∧
    (reload_config ⟨.obj [], ["x"], [("x", .obj [])]⟩ ⟨none, none, none, none⟩).2.2.loraStyle
      = some [("character", some defaultCharacterJson)] ∧
    validStems [("character", some defaultCharacterJson)] = ["character"] ∧
    ("x" : String) ≠ "character" :=
  ⟨rfl, rfl, rfl, by decide⟩

/-- C5 (amended): whenever the global-settings load succeeds and the category
directory exists at scan time, a reload makes `get_categories` exactly the
stems of the schema-valid documents of the directory (in enumeration order)
and replaces the name-to-record cache with exactly those documents — nothing
registered before the reload survives unless re-discovered. -/
theorem C5_reload_get_categories (cs : ConfigState) (fs : FS)
    (files : List (String × FileContent))
    (hg : global_load_ok (migration_step fs) = true)
    (hls : (migration_step fs).loraStyle = some files) :
    get_categories (reload_config cs fs).2.1 = validStems files ∧
    (reload_config cs fs).2.1.category_cache = validCache files := by
  rw [reload_config]
  have h1 : (load_global_settings cs (migration_step fs)).1 = true := by
    rw [load_global_settings_fst, hg]
  have h2 : (load_global_settings cs (migration_step fs)).2.2.loraStyle = some files := by
    rw [load_global_settings_loraStyle, hls]
  simp only [h1, if_true]
  rw [load_category_files_some _ _ files h2]
  exact ⟨rfl, rfl⟩

theorem C5_reload_witness :
    global_load_ok (migration_step ⟨none, some [("alpha", some (.obj [("loras", .obj [])])),
        ("broken", none)], none, none⟩) = true ∧
    (migration_step ⟨none, some [("alpha", some (.obj [("loras", .obj [])])),
        ("broken", none)], none, none⟩).loraStyle
      = some [("alpha", some (.obj [("loras", .obj [])])), ("broken", none)] ∧
    get_categories (reload_config ⟨.obj [], ["stale"], [("stale", .obj [])]⟩
        ⟨none, some [("alpha", some (.obj [("loras", .obj [])])), ("broken", none)],
         none, none⟩).2.1
      = validStems [("alpha", some (.obj [("loras", .obj [])])), ("broken", none)] :=
  ⟨rfl, rfl,
   (C5_reload_get_categories ⟨.obj [], ["stale"], [("stale", .obj [])]⟩
     ⟨none, some [("alpha", some (.obj [("loras", .obj [])])), ("broken", none)], none, none⟩
     [("alpha", some (.obj [("loras", .obj [])])), ("broken", none)] rfl rfl).1⟩

/-! ## `_migrate_legacy_config` (claim C7) -/

/-- When every legacy category value is a dict and names are distinct and
fresh for the target directory, the migration loop writes one document per
category and completes. -/
theorem writeCategoryFiles_all_obj (centries : List (String × Json)) :
    ∀ dir : List (String × FileContent),
      centries.all (fun p => p.2.isObj) = true →
      (centries.map Prod.fst).Nodup →
      (∀ p ∈ centries, ∀ q ∈ dir, q.1 ≠ p.1) →
      writeCategoryFiles centries dir
        = (dir ++ centries.map fun p => (p.1, some (newCategoryJson p.1 p.2.objEntries)),
           true) := by
  induction centries with
  | nil =>
    intro dir _ _ _
    simp [writeCategoryFiles]
  | cons p rest ih =>
    intro dir hobj hnd hfresh
    obtain ⟨name, data⟩ := p
    have hdobj : data.isObj = true := by
      have := List.all_eq_true.mp hobj (name, data) (by simp)
      simpa using this
    cases data with
    | obj kvs =>
      have hwf : writeFile dir name (some (newCategoryJson name kvs))
          = dir ++ [(name, some (newCategoryJson name kvs))] := by
        rw [writeFile, if_neg]
        simp only [List.any_eq_true, decide_eq_true_eq, not_exists, not_and]
        intro q hq
        exact hfresh (name, .obj kvs) (by simp) q hq
      have hobj' : rest.all (fun p => p.2.isObj) = true := by
        simp only [List.all_cons, Bool.and_eq_true] at hobj
        exact hobj.2
      have hnd2 : name ∉ rest.map Prod.fst ∧ (rest.map Prod.fst).Nodup := by
        rw [List.map_cons, List.nodup_cons] at hnd
        exact hnd
      have hnd' : (rest.map Prod.fst).Nodup := hnd2.2
      have hname : name ∉ rest.map Prod.fst := hnd2.1
      have hfresh' : ∀ p2 ∈ rest, ∀ q ∈ dir ++ [(name, some (newCategoryJson name kvs))],
          q.1 ≠ p2.1 := by
        intro p2 hp2 q hq
        rcases List.mem_append.mp hq with hq | hq
        · exact hfresh p2 (by simp [hp2]) q hq
        · rcases List.mem_singleton.mp hq with rfl
          intro h
          exact hname (by
            simp only [List.mem_map]
            exact ⟨p2, hp2, h.symm⟩)
      rw [writeCategoryFiles, hwf, ih _ hobj' hnd' hfresh']
      simp [Json.objEntries]
    | null => simp [Json.isObj] at hdobj
    | bool b => simp [Json.isObj] at hdobj
    | num q => simp [Json.isObj] at hdobj
    | str s => simp [Json.isObj] at hdobj
    | arr xs => simp [Json.isObj] at hdobj

/-- C7: when the legacy consolidated file exists, parses to a dict whose
`categories` value is a dict of dicts with distinct names, and the new-format
directory does not exist, the migration writes one category document per
legacy category key, writes the extracted global settings document, and
renames the legacy file to the backup name (it no longer exists at its
original path); and a migration whose `json.load` raises is caught and leaves
the filesystem unchanged, so nothing propagates to the reload caller. -/
theorem C7_migrate_legacy (fs : FS) (kvs centries : List (String × Json))
    (hleg : fs.legacy = some (some (.obj kvs)))
    (hcat : kvs.lookup "categories" = some (.obj centries))
    (hobj : centries.all (fun p => p.2.isObj) = true)
    (hnd : (centries.map Prod.fst).Nodup)
    (hls : fs.loraStyle = none) :
    (migrate_legacy_config fs).legacy = none ∧
    (migrate_legacy_config fs).backup = some (some (.obj kvs)) ∧
    (migrate_legacy_config fs).globalFile
      = some (some (.obj [("global_settings",
          (kvs.lookup "global_settings").getD (.obj []))])) ∧
    (migrate_legacy_config fs).loraStyle
      = some (centries.map fun p => (p.1, some (newCategoryJson p.1 p.2.objEntries))) ∧
    (∀ fs2 : FS, fs2.legacy = some none → migrate_legacy_config fs2 = fs2) := by
  have hw := writeCategoryFiles_all_obj centries [] hobj hnd (by simp)
  have hmig : migrate_legacy_config fs
      = { fs with
            legacy := none,
            loraStyle := some (centries.map fun p =>
              (p.1, some (newCategoryJson p.1 p.2.objEntries))),
            globalFile := some (some (.obj [("global_settings",
              (kvs.lookup "global_settings").getD (.obj []))])),
            backup := some (some (.obj kvs)) } := by
    rw [migrate_legacy_config, hleg]
    simp only [hls, Option.getD, hcat, hw]
    rfl
  refine ⟨by rw [hmig], by rw [hmig], by rw [hmig], by rw [hmig], ?_⟩
  intro fs2 h2
  rw [migrate_legacy_config, h2]

theorem C7_migrate_witness :
    (migrate_legacy_config ⟨some (some (.obj
        [("categories", .obj [("char", .obj [("loras", .obj [])]),
                              ("style", .obj [("description", .str "s")])]),
         ("global_settings", .obj [("max_trigger_words", .num 3)])])),
        none, none, none⟩).legacy = none ∧
    (migrate_legacy_config ⟨some (some (.obj
        [("categories", .obj [("char", .obj [("loras", .obj [])]),
                              ("style", .obj [("description", .str "s")])]),
         ("global_settings", .obj [("max_trigger_words", .num 3)])])),
        none, none, none⟩).backup = some (some (.obj
        [("categories", .obj [("char", .obj [("loras", .obj [])]),
                              ("style", .obj [("description", .str "s")])]),
         ("global_settings", .obj [("max_trigger_words", .num 3)])])) ∧
    (migrate_legacy_config ⟨some (some (.obj
        [("categories", .obj [("char", .obj [("loras", .obj [])]),
                              ("style", .obj [("description", .str "s")])]),
         ("global_settings", .obj [("max_trigger_words", .num 3)])])),
        none, none, none⟩).globalFile = some (some (.obj [("global_settings",
          (([("categories", Json.obj [("char", .obj [("loras", .obj [])]),
                              ("style", .obj [("description", .str "s")])]),
             ("global_settings", Json.obj [("max_trigger_words", .num 3)])].lookup
               "global_settings").getD (.obj [])))])) ∧
    (migrate_legacy_config ⟨some (some (.obj
        [("categories", .obj [("char", .obj [("loras", .obj [])]),
                              ("style", .obj [("description", .str "s")])]),
         ("global_settings", .obj [("max_trigger_words", .num 3)])])),
        none, none, none⟩).loraStyle
      = some ([("char", Json.obj [("loras", .obj [])]),
               ("style", Json.obj [("description", .str "s")])].map fun p =>
          (p.1, some (newCategoryJson p.1 p.2.objEntries))) ∧
    (∀ fs2 : FS, fs2.legacy = some none → migrate_legacy_config fs2 = fs2) :=
  C7_migrate_legacy
    ⟨some (some (.obj
        [("categories", .obj [("char", .obj [("loras", .obj [])]),
                              ("style", .obj [("description", .str "s")])]),
         ("global_settings", .obj [("max_trigger_words", .num 3)])])),
        none, none, none⟩
    [("categories", .obj [("char", .obj [("loras", .obj [])]),
                          ("style", .obj [("description", .str "s")])]),
     ("global_settings", .obj [("max_trigger_words", .num 3)])]
    [("char", .obj [("loras", .obj [])]), ("style", .obj [("description", .str "s")])]
    rfl rfl rfl (by decide) rfl

/-! ## Node entry point (claim C2) -/

/-- C2: the node entry point is a total function into the six-value shape —
every invocation, including every failure path, yields a full 6-tuple (the
model catches every inner `Except.error` exactly where the source's `except`
blocks do, so nothing escapes the boundary).  With an unknown category (empty
LoRA mapping) the result is the structured error tuple, whose `lora_path` and
`trigger_words` fields are `""` and whose `lora_strength` is `0.7`; an
internal `ValueError` from selection and the empty-selection case are mapped
to the same error shape. -/
theorem C2_node_six_tuple (env : Env) (R : RandomModel) (g : RNG)
    (get_loras : String → List (String × LoRAEntry)) (category : String)
    (num_loras trigger_word_count seed : Int) (enable_trigger_words : Bool)
    (strength_override : ℚ) (base_prompt : String) :
    (∃ a b : String, ∃ c : ℚ, ∃ d e f : String,
      node_select env R g get_loras category num_loras trigger_word_count seed
        enable_trigger_words strength_override base_prompt = (a, b, c, d, e, f)) ∧
    (get_loras category = [] →
      node_select env R g get_loras category num_loras trigger_word_count seed
          enable_trigger_words strength_override base_prompt
        = create_error_response env (lora_not_found_msg category) ∧
      (node_select env R g get_loras category num_loras trigger_word_count seed
          enable_trigger_words strength_override base_prompt).2.1 = "" ∧
      (node_select env R g get_loras category num_loras trigger_word_count seed
          enable_trigger_words strength_override base_prompt).2.2.1 = 7/10 ∧
      (node_select env R g get_loras category num_loras trigger_word_count seed
          enable_trigger_words strength_override base_prompt).2.2.2.1 = "") ∧
    (∀ e : String, get_loras category ≠ [] →
      select_random_lora R g (get_loras category) num_loras
          (if seed < 0 then none else some seed) = .error e →
      node_select env R g get_loras category num_loras trigger_word_count seed
          enable_trigger_words strength_override base_prompt
        = create_error_response env (runtime_error_msg e)) ∧
    (∀ g2 : RNG, get_loras category ≠ [] →
      select_random_lora R g (get_loras category) num_loras
          (if seed < 0 then none else some seed) = .ok ([], g2) →
      node_select env R g get_loras category num_loras trigger_word_count seed
          enable_trigger_words strength_override base_prompt
        = create_error_response env selection_failed_msg) := by
  refine ⟨⟨_, _, _, _, _, _, rfl⟩, ?_, ?_, ?_⟩
  · intro h
    refine ⟨?_, ?_, ?_, ?_⟩ <;> simp [node_select, h, create_error_response]
  · intro e hne herr
    rw [node_select]
    simp [hne, herr]
  · intro g2 hne hok
    rw [node_select]
    simp [hne, hok]

theorem C2_node_witness :
    node_select ⟨fun _ => "", fun _ => false, "0"⟩ takeSampler 0 (fun _ => [])
        "unknown" 1 100 (-1) true (-1) ""
      = create_error_response ⟨fun _ => "", fun _ => false, "0"⟩
          (lora_not_found_msg "unknown") :=
  ((C2_node_six_tuple ⟨fun _ => "", fun _ => false, "0"⟩ takeSampler 0 (fun _ => [])
      "unknown" 1 100 (-1) true (-1) "").2.1 rfl).1
